import Mathlib

/-!
Shallow embedding of the text-length gating pipeline of the repository:

* `src/app.py` — the Flask service: `trim_text_middle` and the
  `/validate_audio` handler `handle_audio_validation`.
* `src/minimal_assistant.py` — the caller-side duration estimator
  `calculate_audio_duration`.

Python strings are modelled as Lean `String`, JSON numbers (the `length`
field) as `ℚ`, and the external HuggingFace summarization pipeline as an
explicit function parameter returning `Except String String` (`Except.error`
models the pipeline raising an exception, which in the Flask app propagates
out of the handler as an HTTP 500 response).
-/

/-- Whitespace characters recognised by a no-argument Python `str.split()`
(restricted to the ASCII whitespace set; the inputs of this development
contain only plain spaces). -/
def isPySpace (c : Char) : Bool :=
  c == ' ' || c == '\t' || c == '\n' || c == '\r' || c == '\x0b' || c == '\x0c'

/-- Word accumulator implementing Python `str.split()` on a list of
characters: splits on runs of whitespace and returns the maximal non-empty
words, in order. `cur` holds the characters of the current word, reversed. -/
def pyWords : List Char → List Char → List String
  | [], cur => if cur.isEmpty then [] else [String.mk cur.reverse]
  | c :: rest, cur =>
    if isPySpace c then
      if cur.isEmpty then pyWords rest [] else String.mk cur.reverse :: pyWords rest []
    else pyWords rest (c :: cur)

/-- Model of Python `text.split()` (no arguments): whitespace-separated
words, with no empty words in the result. -/
def pySplit (text : String) : List String :=
  pyWords text.data []

/-- Embedding of `trim_text_middle(text, ratio=0.5)` from `src/app.py`.
The only call site (`handle_audio_validation`) uses the default
`ratio=0.5`, which is inlined here. Python's `int(total_words * 0.5)`
truncates toward zero; `total_words * 0.5` is non-negative and exact in
binary floating point, so the value is exactly `⌊total_words / 2⌋`, i.e.
natural division by 2 (`floor_half_toNat` below records this equality with
the rational floor). The slice `words[start:end]` with
`end = start + trim_size` is `(words.drop start).take trim_size`. -/
def trim_text_middle (text : String) : String :=
  let words := pySplit text
  let total_words := words.length
  if total_words ≤ 150 then
    text
  else
    let trim_size := total_words / 2
    let start := (total_words - trim_size) / 2
    String.intercalate " " ((words.drop start).take trim_size)

/-- The external summarization capability, as seen from the handler: the
whole expression `summarizer(t, max_length=100, min_length=50,
do_sample=False)[0]['summary_text']` is a black box taking the input text,
`max_length`, `min_length` and `do_sample`, and either producing the
summary string or raising an exception (`Except.error`). -/
abbrev Summarizer := String → Nat → Nat → Bool → Except String String

/-- A parsed request body for `/validate_audio`: the JSON object may or may
not carry the `text` and `length` fields. -/
structure AudioRequest where
  text : Option String
  length : Option ℚ

/-- Outcome of one call to the `/validate_audio` handler. `success m`
models `200 {"message": m}`; `badRequest e` models `400 {"error": e}`;
`serverError` models an exception escaping the handler (the Flask layer
turns it into an HTTP 500, a non-`ok` response with no `message`). -/
inductive GateResponse where
  | success (message : String)
  | badRequest (message : String)
  | serverError
deriving DecidableEq

/-- Embedding of `handle_audio_validation` from `src/app.py`, parametrised
by the summarizer capability. `data.get("text", "")` and
`data.get("length", 0)` are the `Option.getD` defaults; `if not text` on a
string is the emptiness test; the summarizer call site passes
`max_length=100, min_length=50, do_sample=False` on the trimmed text. -/
def handle_audio_validation (summarizer : Summarizer) (data : AudioRequest) :
    GateResponse :=
  let text := data.text.getD ""
  let length := data.length.getD 0
  if text = "" then
    .badRequest "The 'text' field is missing."
  else if length ≤ 60 then
    .success text
  else
    let trimmed_text := trim_text_middle text
    match summarizer trimmed_text 100 50 false with
    | .ok summary => .success summary
    | .error _ => .serverError

/-- Embedding of `calculate_audio_duration` from
`src/minimal_assistant.py`: word count divided by 150/60 words per
second, over exact rationals. -/
def calculate_audio_duration (text : String) : ℚ :=
  let words_per_second : ℚ := 150 / 60
  let word_count : ℚ := (pySplit text).length
  word_count / words_per_second

/-- A concrete 300-word text (300 copies of the word "a"), used to witness
the Reduce-path trim arithmetic on a word count above the 150-word
threshold. -/
def exampleText300 : String := String.intercalate " " (List.replicate 300 "a")

/-- Natural division by 2 agrees with the exact floor of multiplication by
the Python literal `0.5`, as in `int(total_words * 0.5)`. -/
lemma floor_half_toNat (n : ℕ) : (⌊(n : ℚ) * (1 / 2)⌋).toNat = n / 2 := by
  rw [show (n : ℚ) * (1 / 2) = (n : ℚ) / ((2 : ℕ) : ℚ) by push_cast; ring]
  rw [Int.floor_toNat, Nat.floor_div_eq_div]

/-- C5: for every non-empty text and every estimated duration at most 60
seconds, the handler returns the original text unchanged as the success
message, for every summarizer capability (so neither trimming nor
summarization can influence the outcome). -/
theorem C5_passthrough_identity (s : Summarizer) (text : String) (d : ℚ)
    (htext : text ≠ "") (hd : d ≤ 60) :
    handle_audio_validation s ⟨some text, some d⟩ = .success text := by
  simp [handle_audio_validation, htext, hd]

theorem C5_passthrough_identity_witness :
    ("hello world" : String) ≠ "" ∧ (15 : ℚ) ≤ 60 ∧
      handle_audio_validation (fun _ _ _ _ => .ok "SUMMARY")
        ⟨some "hello world", some 15⟩ = .success "hello world" :=
  ⟨by decide, by norm_num,
    C5_passthrough_identity _ "hello world" 15 (by decide) (by norm_num)⟩

/-- C4: when the text field is missing or empty, the handler answers with
the 400 error body "The 'text' field is missing." for every length value
and every summarizer, and never with a success message. -/
theorem C4_missing_text_error (s : Summarizer) (otext : Option String)
    (olen : Option ℚ) (h : otext = none ∨ otext = some "") :
    handle_audio_validation s ⟨otext, olen⟩ =
        .badRequest "The 'text' field is missing." ∧
      ∀ m, handle_audio_validation s ⟨otext, olen⟩ ≠ .success m := by
  rcases h with h | h <;> subst h <;> simp [handle_audio_validation]

theorem C4_missing_text_error_witness :
    ((none : Option String) = none ∨ (none : Option String) = some "") ∧
      (handle_audio_validation (fun _ _ _ _ => .ok "SUMMARY") ⟨none, some 90⟩ =
          .badRequest "The 'text' field is missing." ∧
        ∀ m, handle_audio_validation (fun _ _ _ _ => .ok "SUMMARY")
          ⟨none, some 90⟩ ≠ .success m) :=
  ⟨Or.inl rfl, C4_missing_text_error _ none (some 90) (Or.inl rfl)⟩

/-- C10: when the length field is absent, the handler uses the default 0,
so non-empty text is returned unchanged (PassThrough) rather than an error
about the missing duration. -/
theorem C10_missing_length_passthrough (s : Summarizer) (text : String)
    (htext : text ≠ "") :
    handle_audio_validation s ⟨some text, none⟩ = .success text := by
  have h0 : (0 : ℚ) ≤ 60 := by norm_num
  simp [handle_audio_validation, htext, h0]

theorem C10_missing_length_passthrough_witness :
    ("hello world" : String) ≠ "" ∧
      handle_audio_validation (fun _ _ _ _ => .ok "SUMMARY")
        ⟨some "hello world", none⟩ = .success "hello world" :=
  ⟨by decide, C10_missing_length_passthrough _ "hello world" (by decide)⟩

/-- C8: on the Reduce path (non-empty text, duration strictly above 60),
the handler's outcome is exactly determined by the summarizer's value on
the trimmed text with arguments max_length 100, min_length 50 and sampling
disabled: a successful summary becomes the success message, an exception
escapes the handler. -/
theorem C8_summarizer_invocation (s : Summarizer) (text : String) (d : ℚ)
    (htext : text ≠ "") (hd : 60 < d) :
    handle_audio_validation s ⟨some text, some d⟩ =
      match s (trim_text_middle text) 100 50 false with
      | .ok summary => .success summary
      | .error _ => .serverError := by
  simp [handle_audio_validation, htext, not_le.mpr hd]

theorem C8_summarizer_invocation_witness :
    ("hello world" : String) ≠ "" ∧ (60 : ℚ) < 100 ∧
      handle_audio_validation (fun _ _ _ _ => .ok "S")
          ⟨some "hello world", some 100⟩ =
        match (fun (_ : String) (_ _ : Nat) (_ : Bool) =>
            (Except.ok "S" : Except String String))
            (trim_text_middle "hello world") 100 50 false with
        | .ok summary => .success summary
        | .error _ => .serverError :=
  ⟨by decide, by norm_num,
    C8_summarizer_invocation _ "hello world" 100 (by decide) (by norm_num)⟩

/-- C7: when the summarizer raises on the trimmed text of a valid
Reduce-path request, the handler lets the exception escape (HTTP 500,
modelled by serverError): the caller receives an error response, never a
success message — in particular neither the original text nor an empty
string stands in for the failure. -/
theorem C7_summarizer_failure_surfaced (s : Summarizer) (text : String)
    (d : ℚ) (e : String) (htext : text ≠ "") (hd : 60 < d)
    (hs : s (trim_text_middle text) 100 50 false = .error e) :
    handle_audio_validation s ⟨some text, some d⟩ = .serverError ∧
      ∀ m, handle_audio_validation s ⟨some text, some d⟩ ≠ .success m := by
  have key : handle_audio_validation s ⟨some text, some d⟩ = .serverError := by
    simp [handle_audio_validation, htext, not_le.mpr hd, hs]
  exact ⟨key, fun m => by rw [key]; simp⟩

theorem C7_summarizer_failure_surfaced_witness :
    ("hello world" : String) ≠ "" ∧ (60 : ℚ) < 100 ∧
      (fun (_ : String) (_ _ : Nat) (_ : Bool) =>
          (Except.error "boom" : Except String String))
          (trim_text_middle "hello world") 100 50 false = .error "boom" ∧
      (handle_audio_validation (fun _ _ _ _ => .error "boom")
          ⟨some "hello world", some 100⟩ = .serverError ∧
        ∀ m, handle_audio_validation (fun _ _ _ _ => .error "boom")
          ⟨some "hello world", some 100⟩ ≠ .success m) :=
  ⟨by decide, by norm_num, rfl,
    C7_summarizer_failure_surfaced _ "hello world" 100 "boom" (by decide)
      (by norm_num) rfl⟩

/-- C1 counterexample: with duration 100 > 60 and a 2-word text (word
count at most 150), the handler does not return the original text — the
summarizer is still invoked on the (unchanged) text and its output is the
success message. -/
theorem C1_counterexample :
    ("hello world" : String) ≠ "" ∧ (pySplit "hello world").length ≤ 150 ∧
      (60 : ℚ) < 100 ∧
      handle_audio_validation (fun _ _ _ _ => .ok "SUMMARY")
        ⟨some "hello world", some 100⟩ = .success "SUMMARY" ∧
      handle_audio_validation (fun _ _ _ _ => .ok "SUMMARY")
        ⟨some "hello world", some 100⟩ ≠ .success "hello world" :=
  ⟨by decide, by decide, by norm_num, by decide, by decide⟩

/-- C1 amended: for non-empty text with at most 150 words and duration
above 60, the short-text safety net applies only to the trimming step —
trim_text_middle returns the text unchanged — but the handler still calls
the summarizer on that unchanged text and returns the summarizer's output,
not the original text. -/
theorem C1_amended_safety_net_trim_only (s : Summarizer) (text : String)
    (d : ℚ) (htext : text ≠ "") (hd : 60 < d)
    (hwc : (pySplit text).length ≤ 150) :
    trim_text_middle text = text ∧
      handle_audio_validation s ⟨some text, some d⟩ =
        match s text 100 50 false with
        | .ok summary => .success summary
        | .error _ => .serverError := by
  have htrim : trim_text_middle text = text := by
    simp [trim_text_middle, hwc]
  exact ⟨htrim, by simp [handle_audio_validation, htext, not_le.mpr hd, htrim]⟩

theorem C1_amended_safety_net_trim_only_witness :
    ("hello world" : String) ≠ "" ∧ (60 : ℚ) < 100 ∧
      (pySplit "hello world").length ≤ 150 ∧
      (trim_text_middle "hello world" = "hello world" ∧
        handle_audio_validation (fun _ _ _ _ => .ok "S")
            ⟨some "hello world", some 100⟩ =
          match (fun (_ : String) (_ _ : Nat) (_ : Bool) =>
              (Except.ok "S" : Except String String)) "hello world" 100 50 false with
          | .ok summary => .success summary
          | .error _ => .serverError) :=
  ⟨by decide, by norm_num, by decide,
    C1_amended_safety_net_trim_only _ "hello world" 100 (by decide)
      (by norm_num) (by decide)⟩

/-- C2 counterexample: gate("hello world", 0) produces PassThrough output
(the text unchanged), yet re-gating that output with duration 100 yields
the summarizer's output instead of the same text, so
gate(gate(text, d), d') = gate(text, d) fails for d = 0, d' = 100. -/
theorem C2_counterexample :
    handle_audio_validation (fun _ _ _ _ => .ok "SUMMARY")
        ⟨some "hello world", some 0⟩ = .success "hello world" ∧
      handle_audio_validation (fun _ _ _ _ => .ok "SUMMARY")
        ⟨some "hello world", some 100⟩ ≠ .success "hello world" :=
  ⟨by decide, by decide⟩

/-- C2 amended: whenever gate(text, d) produces PassThrough output (the
success message is the text itself) and the re-gating duration d' is
itself at most 60, re-gating the output with d' (under any summarizer)
returns the same response, i.e. gate(gate(text, d), d') = gate(text, d). -/
theorem C2_amended_idempotent_small_duration (s s' : Summarizer)
    (text : String) (d d' : ℚ) (hd' : d' ≤ 60)
    (h : handle_audio_validation s ⟨some text, some d⟩ = .success text) :
    handle_audio_validation s' ⟨some text, some d'⟩ =
      handle_audio_validation s ⟨some text, some d⟩ := by
  have htext : text ≠ "" := by
    intro he
    subst he
    simp [handle_audio_validation] at h
  rw [h]
  simp [handle_audio_validation, htext, hd']

theorem C2_amended_idempotent_small_duration_witness :
    (30 : ℚ) ≤ 60 ∧
      handle_audio_validation (fun _ _ _ _ => .ok "SUMMARY")
        ⟨some "hello world", some 0⟩ = .success "hello world" ∧
      handle_audio_validation (fun _ _ _ _ => .ok "SUMMARY")
          ⟨some "hello world", some 30⟩ =
        handle_audio_validation (fun _ _ _ _ => .ok "SUMMARY")
          ⟨some "hello world", some 0⟩ :=
  ⟨by norm_num, by decide,
    C2_amended_idempotent_small_duration _ _ "hello world" 0 30 (by norm_num)
      (by decide)⟩

/-- C3 counterexample: on the Reduce path the handler returns the
summarizer's output verbatim, so a summarizer that succeeds with the empty
string makes the handler answer a success message that is empty, for the
non-empty input "hello world". -/
theorem C3_counterexample :
    ("hello world" : String) ≠ "" ∧
      handle_audio_validation (fun _ _ _ _ => .ok "")
        ⟨some "hello world", some 100⟩ = .success "" :=
  ⟨by decide, by decide⟩

/-- C3 amended: the handler's success message is either the original text
or the summarizer's output verbatim, so for any summarizer whose
successful outputs are never empty, every success message is non-empty
(emptiness can only come from the summarizer itself; empty input text
never reaches a success response). -/
theorem C3_amended_nonempty_success (s : Summarizer)
    (hs : ∀ t a b sample out, s t a b sample = .ok out → out ≠ "")
    (data : AudioRequest) (m : String)
    (h : handle_audio_validation s data = .success m) : m ≠ "" := by
  obtain ⟨otext, olen⟩ := data
  simp only [handle_audio_validation] at h
  split at h
  · simp at h
  · next hne =>
    split at h
    · rw [GateResponse.success.injEq] at h
      exact h ▸ hne
    · split at h
      · next summary heq =>
        rw [GateResponse.success.injEq] at h
        exact h ▸ hs _ _ _ _ _ heq
      · simp at h

theorem C3_amended_nonempty_success_witness :
    handle_audio_validation (fun _ _ _ _ => .ok "S") ⟨some "hi", some 0⟩ =
        .success "hi" ∧
      ("hi" : String) ≠ "" :=
  ⟨by decide,
    C3_amended_nonempty_success (fun _ _ _ _ => .ok "S")
      (fun t a b sample out hout => by
        simp only [Except.ok.injEq] at hout
        subst hout
        decide)
      ⟨some "hi", some 0⟩ "hi" (by decide)⟩

/-- C6: on the Reduce-path trim (word count w above 150), the result is
words[start:end] joined by single spaces with trim_size = floor(w * 0.5),
start = floor((w - trim_size) / 2), end = start + trim_size; for w = 300
this selects exactly the 150 words [75:225). -/
theorem C6_trim_formula (text : String) (h : 150 < (pySplit text).length) :
    trim_text_middle text =
      String.intercalate " "
        (((pySplit text).drop
            (((pySplit text).length -
              (⌊((pySplit text).length : ℚ) * (1 / 2)⌋).toNat) / 2)).take
          ((⌊((pySplit text).length : ℚ) * (1 / 2)⌋).toNat)) ∧
      ((pySplit text).length = 300 →
        trim_text_middle text =
          String.intercalate " " (((pySplit text).drop 75).take 150)) := by
  have hlen := floor_half_toNat (pySplit text).length
  have hnot : ¬(pySplit text).length ≤ 150 := not_le.mpr h
  constructor
  · rw [hlen]
    simp only [trim_text_middle, hnot, if_false]
  · intro h300
    simp only [trim_text_middle, hnot, if_false, h300]
    norm_num

set_option maxRecDepth 100000 in
theorem C6_trim_formula_witness :
    150 < (pySplit exampleText300).length ∧
      (trim_text_middle exampleText300 =
        String.intercalate " "
          (((pySplit exampleText300).drop
              (((pySplit exampleText300).length -
                (⌊((pySplit exampleText300).length : ℚ) * (1 / 2)⌋).toNat) / 2)).take
            ((⌊((pySplit exampleText300).length : ℚ) * (1 / 2)⌋).toNat)) ∧
        ((pySplit exampleText300).length = 300 →
          trim_text_middle exampleText300 =
            String.intercalate " " (((pySplit exampleText300).drop 75).take 150))) :=
  ⟨by decide, C6_trim_formula exampleText300 (by decide)⟩

/-- C9: the duration estimator is a total function returning exactly
word_count / 2.5 seconds (over exact rationals, 5/2 = 2.5), always
non-negative, and zero on the empty string. -/
theorem C9_duration_estimator (text : String) :
    calculate_audio_duration text = ((pySplit text).length : ℚ) / (5 / 2) ∧
      0 ≤ calculate_audio_duration text ∧
      calculate_audio_duration "" = 0 := by
  have hval : calculate_audio_duration text =
      ((pySplit text).length : ℚ) / (5 / 2) := by
    simp only [calculate_audio_duration]
    norm_num
  refine ⟨hval, ?_, ?_⟩
  · rw [hval]
    positivity
  · have hnil : pySplit "" = [] := rfl
    simp [calculate_audio_duration, hnil]
